import Mathlib

/-!
# Verification of the katepeh KTP-recognition frontend

Shallow embedding of the React frontend of the Indonesian KTP recognition
web application, together with spec-modelled definitions for the backend
endpoints that are described in the specification but whose code is not
part of the repository snapshot.

Sources embedded:
* `frontend/src/types/ktp.ts` — `Gender`, `KTPData`
* `frontend/src/components/ImageUpload.tsx` — dropzone validation, `onDrop`
* `frontend/src/components/KTPDisplay.tsx` — field labels and row rendering
* `frontend/src/components/ErrorBoundary.tsx` — error boundary state machine
* `frontend/src/App.tsx` — `handleUpload`, error-message selection, rendering
* the `KTPDisplay` test fixture `mockKTPData`
-/

namespace Katepeh

/-- The union type `Gender` from `types/ktp.ts`, whose members are the
literal strings LAKI-LAKI and PEREMPUAN. -/
inductive Gender where
  | lakiLaki
  | perempuan
deriving DecidableEq

/-- The literal string value of a `Gender` member. -/
def Gender.toString : Gender → String
  | .lakiLaki => "LAKI-LAKI"
  | .perempuan => "PEREMPUAN"

/-- Parse a string back into the `Gender` enum; `none` for any other string. -/
def Gender.fromString (s : String) : Option Gender :=
  if s = "LAKI-LAKI" then some Gender.lakiLaki
  else if s = "PEREMPUAN" then some Gender.perempuan
  else none

/-- The record interface `KTPData` from `types/ktp.ts`: six required fields and six
optional ones.  Optional fields are `Option String`; `none` models an absent
(`undefined`) field.  `blood_type` is kept as a plain string value, as the
runtime value arriving from the server is a string. -/
structure KTPData where
  nik : String
  name : String
  birth_place : String
  birth_date : String
  gender : Gender
  address : String
  blood_type : Option String
  religion : Option String
  marital_status : Option String
  occupation : Option String
  nationality : Option String
  valid_until : Option String
deriving DecidableEq

/-- The `mockKTPData` fixture of the `KTPDisplay` test file. -/
def mockKTPData : KTPData :=
  { nik := "3173042504900001"
    name := "JOHN DOE"
    birth_place := "JAKARTA"
    birth_date := "1990-04-25"
    gender := Gender.lakiLaki
    address := "JL. KEBON JERUK RT 001 RW 002 KEL. KEMANGGISAN KEC. PALMERAH"
    blood_type := some "O"
    religion := some "ISLAM"
    marital_status := some "KAWIN"
    occupation := some "KARYAWAN SWASTA"
    nationality := some "WNI"
    valid_until := some "SEUMUR HIDUP" }

/-- Semantics of the NIK validation regex `^\d{16}$`: exactly sixteen
characters, all decimal digits. -/
def isNIK16 (s : String) : Bool :=
  s.length == 16 && s.data.all Char.isDigit

/-- Check that a string is a date in `DD-MM-YYYY` format: two digits, a
dash, two digits, a dash, four digits. -/
def isDDMMYYYY (s : String) : Bool :=
  match s.data with
  | [d1, d2, c1, m1, m2, c2, y1, y2, y3, y4] =>
      d1.isDigit && d2.isDigit && c1 == '-' && m1.isDigit && m2.isDigit &&
      c2 == '-' && y1.isDigit && y2.isDigit && y3.isDigit && y4.isDigit
  | _ => false

/-! ## ImageUpload component (`ImageUpload.tsx`) -/

/-- A browser `File`: the properties the component inspects. -/
structure JsFile where
  fname : String
  mime : String
  size : Nat
deriving DecidableEq

/-- The constant `MAX_FILE_SIZE` (10 * 1024 * 1024 bytes) from
`ImageUpload.tsx`. -/
def MAX_FILE_SIZE : Nat := 10 * 1024 * 1024

/-- The dropzone `accept` option of `ImageUpload.tsx`: MIME types
`image/jpeg` and `image/png`. -/
def acceptedMime (m : String) : Bool :=
  m == "image/jpeg" || m == "image/png"

/-- A react-dropzone file rejection error: a code and a message. -/
structure FileError where
  code : String
  message : String
deriving DecidableEq

def tooLargeMsg : String := "File is too large. Maximum size is 10MB."

def invalidTypeMsg : String := "Invalid file type. Only JPG and PNG images are accepted."

/-- The rejection errors react-dropzone attaches to a dropped file under the
`accept`/`maxSize` options of `ImageUpload.tsx`: a type error when the MIME
type is not accepted, then a size error when the file exceeds `maxSize`. -/
def dropzoneErrors (f : JsFile) : List FileError :=
  (if acceptedMime f.mime then []
   else [{ code := "file-invalid-type", message := "dropzone: file type must be image/jpeg or image/png" }]) ++
  (if f.size > MAX_FILE_SIZE then
    [{ code := "file-too-large", message := "dropzone: file is larger than the maxSize" }]
   else [])

/-- The onDrop callback of `ImageUpload.tsx`.  Result: the final
`validationError` state and the file passed to `onUpload` (if any). -/
def onDrop (acceptedFiles : List JsFile)
    (rejectedFiles : List (JsFile × List FileError)) :
    Option String × Option JsFile :=
  match rejectedFiles with
  | (_, e :: _) :: _ =>
      (some (if e.code = "file-too-large" then tooLargeMsg
             else if e.code = "file-invalid-type" then invalidTypeMsg
             else e.message), none)
  | (_, []) :: _ => (none, none)
  | [] =>
      match acceptedFiles with
      | f :: _ =>
          if f.size > MAX_FILE_SIZE then (some tooLargeMsg, none)
          else (none, some f)
      | [] => (none, none)

/-- Dropping a single file on the component: react-dropzone classifies it as
accepted or rejected, then `onDrop` runs. -/
def dropSingleFile (f : JsFile) : Option String × Option JsFile :=
  let errs := dropzoneErrors f
  if errs.isEmpty then onDrop [f] [] else onDrop [] [(f, errs)]

/-! ## Error-message selection and `handleUpload` (`App.tsx`) -/

/-- JavaScript truthiness filter for an optional string: `none` when the
value is absent or the empty string. -/
def truthyStr : Option String → Option String
  | none => none
  | some s => if s = "" then none else some s

/-- The `data` of an axios error response, as `handleUpload` reads it:
`data.error` and `data.detail.error`. -/
structure ResponseData where
  error : Option String
  detailError : Option String
deriving DecidableEq

/-- An axios error: an optional HTTP response and the error `message`. -/
structure AxiosErr where
  response : Option ResponseData
  message : String
deriving DecidableEq

/-- The error-message selection of `handleUpload`: the first truthy value
among the error field of the response data, the error field of its detail
object, and the message of the axios error itself. -/
def errorMessageOf (e : AxiosErr) : String :=
  match truthyStr (Option.bind e.response ResponseData.error) with
  | some m => m
  | none =>
      match truthyStr (Option.bind e.response ResponseData.detailError) with
      | some m => m
      | none => e.message

def fallbackMsg : String := "Failed to process KTP image. Please try again."

/-- A failure thrown by an HTTP request: an axios error, or anything else. -/
inductive ReqError where
  | axios (e : AxiosErr)
  | other
deriving DecidableEq

/-- The message that the catch block of `handleUpload` stores in the
`error` state. -/
def catchMsg : ReqError → String
  | .axios e => errorMessageOf e
  | .other => fallbackMsg

/-- The `extract` response body: `{ktp_data: KTPRecord}`. -/
structure ExtractResp where
  ktp_data : KTPData
deriving DecidableEq

/-- The outcome the two HTTP requests of `handleUpload` would have:
`uploadResult = none` means the upload POST succeeds; `extractResult` is
either a failure or the extract response body. -/
structure ServerBehavior where
  uploadResult : Option ReqError
  extractResult : ReqError ⊕ ExtractResp

/-- The App component state touched by `handleUpload`. -/
structure AppState where
  ktpData : Option KTPData
  loading : Bool
  error : Option String
  imagePreview : Option String
deriving DecidableEq

/-- The data URL the `FileReader` preview produces for a file (modelled
abstractly; no claim depends on its contents). -/
def dataURL (f : JsFile) : String := "data:" ++ f.mime ++ ";base64," ++ f.fname

/-- An HTTP request `handleUpload` issues, with its payload. -/
inductive Request where
  | upload (f : JsFile)
  | extract (f : JsFile)
deriving DecidableEq

/-- The function `handleUpload` from `App.tsx`: sets `loading`, clears `error`, posts the
file to `/upload`, then to `/extract`, storing `ktp_data` of the extract
response; the catch block clears the preview and stores an error message;
the finally block clears `loading`.  Returns the final state and the list
of HTTP requests issued, in order. -/
def handleUpload (st : AppState) (f : JsFile) (b : ServerBehavior) :
    AppState × List Request :=
  let st1 : AppState :=
    { st with loading := true, error := none, imagePreview := some (dataURL f) }
  match b.uploadResult with
  | some e =>
      ({ st1 with imagePreview := none, error := some (catchMsg e), loading := false },
       [Request.upload f])
  | none =>
      match b.extractResult with
      | Sum.inl e =>
          ({ st1 with imagePreview := none, error := some (catchMsg e), loading := false },
           [Request.upload f, Request.extract f])
      | Sum.inr resp =>
          ({ st1 with ktpData := some resp.ktp_data, loading := false },
           [Request.upload f, Request.extract f])

/-- What the App error box renders: the `error` state when truthy
(`{error && ...}` then `{error}`), rendered verbatim. -/
def renderedErrorBox (st : AppState) : Option String :=
  truthyStr st.error

/-! ## ErrorBoundary component (`ErrorBoundary.tsx`) -/

/-- A JavaScript `Error` as the boundary uses it: its `message`. -/
structure JsError where
  message : String
deriving DecidableEq

/-- The `ErrorBoundary` component state. -/
structure EBState where
  hasError : Bool
  error : Option JsError
deriving DecidableEq

/-- The initial state: `{hasError: false, error: null}`. -/
def EBState.initial : EBState := { hasError := false, error := none }

/-- The static method getDerivedStateFromError of the boundary returns
`{hasError: true, error}`. -/
def getDerivedStateFromError (e : JsError) : EBState :=
  { hasError := true, error := some e }

/-- What `ErrorBoundary.render` produces. -/
inductive EBRendered where
  | fallback (msg : String)
  | children
deriving DecidableEq

/-- The render method of ErrorBoundary: the fallback UI showing the caught
message when it is truthy and the default text Something went wrong
otherwise, whenever hasError is set; otherwise the children. -/
def EBrender (s : EBState) : EBRendered :=
  if s.hasError then
    EBRendered.fallback
      (match truthyStr (Option.map JsError.message s.error) with
       | some m => m
       | none => "Something went wrong")
  else EBRendered.children

/-- The state after clicking `Try again`:
`setState({hasError: false, error: null})`. -/
def tryAgainState : EBState := { hasError := false, error := none }

/-! ## KTPDisplay component (`KTPDisplay.tsx`) -/

/-- The `fieldLabels` entries of `KTPDisplay.tsx`, in source order, paired
with the value `data[key]` each row would show.  Required string fields are
always present (`some`); the `gender` enum renders as its literal string. -/
def fieldEntries (d : KTPData) : List (String × Option String) :=
  [("NIK", some d.nik),
   ("Nama", some d.name),
   ("Tempat Lahir", some d.birth_place),
   ("Tanggal Lahir", some d.birth_date),
   ("Jenis Kelamin", some (Gender.toString d.gender)),
   ("Alamat", some d.address),
   ("Golongan Darah", d.blood_type),
   ("Agama", d.religion),
   ("Status Perkawinan", d.marital_status),
   ("Pekerjaan", d.occupation),
   ("Kewarganegaraan", d.nationality),
   ("Berlaku Hingga", d.valid_until)]

/-- One row of the display: `if (!value) return null` then a `(label, value)`
row. -/
def renderEntry (p : String × Option String) : Option (String × String) :=
  match truthyStr p.2 with
  | some v => some (p.1, v)
  | none => none

/-- The labelled rows `KTPDisplay` renders for a record. -/
def renderRows (d : KTPData) : List (String × String) :=
  (fieldEntries d).filterMap renderEntry

/-! ## Export endpoint, modelled from the spec -/

/-- Modelled from the spec: the backend (`GET /api/export/{format}`) is not
in the repository snapshot; a JSON document is modelled as a value tree with
null, string and object nodes. -/
inductive Json where
  | null
  | str (s : String)
  | obj (fields : List (String × Json))

/-- Key lookup in the field list of a JSON object. -/
def jLookup : List (String × Json) → String → Option Json
  | [], _ => none
  | (k, v) :: rest, key => if k = key then some v else jLookup rest key

/-- Read a JSON value as a required string field. -/
def jStr : Option Json → Option String
  | some (Json.str s) => some s
  | _ => none

/-- Read a JSON value as an optional string field (`null` means absent). -/
def jOptStr : Option Json → Option (Option String)
  | some Json.null => some none
  | some (Json.str s) => some (some s)
  | _ => none

/-- Encode an optional string field as JSON. -/
def encOpt : Option String → Json
  | none => Json.null
  | some s => Json.str s

/-- Modelled from the spec: `GET /api/export/json` serialises the extracted
twelve fields of the extracted record into a JSON object. -/
def exportJSON (r : KTPData) : Json :=
  Json.obj
    [("nik", Json.str r.nik),
     ("name", Json.str r.name),
     ("birth_place", Json.str r.birth_place),
     ("birth_date", Json.str r.birth_date),
     ("gender", Json.str (Gender.toString r.gender)),
     ("address", Json.str r.address),
     ("blood_type", encOpt r.blood_type),
     ("religion", encOpt r.religion),
     ("marital_status", encOpt r.marital_status),
     ("occupation", encOpt r.occupation),
     ("nationality", encOpt r.nationality),
     ("valid_until", encOpt r.valid_until)]

/-- Modelled from the spec: parsing an exported JSON document back into a
record, reading each field by key. -/
def importJSON (j : Json) : Option KTPData :=
  match j with
  | Json.obj fs => do
      let nik ← jStr (jLookup fs "nik")
      let nm ← jStr (jLookup fs "name")
      let bp ← jStr (jLookup fs "birth_place")
      let bd ← jStr (jLookup fs "birth_date")
      let gs ← jStr (jLookup fs "gender")
      let g ← Gender.fromString gs
      let ad ← jStr (jLookup fs "address")
      let bt ← jOptStr (jLookup fs "blood_type")
      let rl ← jOptStr (jLookup fs "religion")
      let ms ← jOptStr (jLookup fs "marital_status")
      let oc ← jOptStr (jLookup fs "occupation")
      let na ← jOptStr (jLookup fs "nationality")
      let vu ← jOptStr (jLookup fs "valid_until")
      pure { nik := nik, name := nm, birth_place := bp, birth_date := bd,
             gender := g, address := ad, blood_type := bt, religion := rl,
             marital_status := ms, occupation := oc, nationality := na,
             valid_until := vu }
  | _ => none

/-- The double-quote character, used for CSV cell quoting. -/
def quoteChar : Char := Char.ofNat 34

/-- Modelled from the spec: a CSV cell. A present value is written wrapped
in quotes; an absent optional value is an empty cell, so the two are
distinguishable. -/
def encodeCell : Option String → List Char
  | none => []
  | some s => quoteChar :: (s.data ++ [quoteChar])

/-- Decode a CSV cell: an empty cell is an absent value; a quoted cell is
the value between the quotes. -/
def decodeCell (l : List Char) : Option (Option String) :=
  match l with
  | [] => some none
  | c :: rest =>
      if c = quoteChar ∧ rest.getLast? = some quoteChar then
        some (some (String.mk rest.dropLast))
      else none

/-- The CSV header row: the twelve field names. -/
def csvHeader : List (List Char) :=
  ["nik".data, "name".data, "birth_place".data, "birth_date".data,
   "gender".data, "address".data, "blood_type".data, "religion".data,
   "marital_status".data, "occupation".data, "nationality".data,
   "valid_until".data]

/-- Modelled from the spec: `GET /api/export/csv` writes a header row and
one data row with the twelve fields of the record. -/
def exportCSV (r : KTPData) : List (List (List Char)) :=
  [csvHeader,
   [encodeCell (some r.nik), encodeCell (some r.name),
    encodeCell (some r.birth_place), encodeCell (some r.birth_date),
    encodeCell (some (Gender.toString r.gender)), encodeCell (some r.address),
    encodeCell r.blood_type, encodeCell r.religion,
    encodeCell r.marital_status, encodeCell r.occupation,
    encodeCell r.nationality, encodeCell r.valid_until]]

/-- Modelled from the spec: parsing an exported CSV document (header row
plus one data row) back into a record. -/
def importCSV (doc : List (List (List Char))) : Option KTPData :=
  match doc with
  | [h, row] =>
      if h = csvHeader then
        match row with
        | [c1, c2, c3, c4, c5, c6, c7, c8, c9, c10, c11, c12] => do
            let nik ← Option.bind (decodeCell c1) id
            let nm ← Option.bind (decodeCell c2) id
            let bp ← Option.bind (decodeCell c3) id
            let bd ← Option.bind (decodeCell c4) id
            let gs ← Option.bind (decodeCell c5) id
            let g ← Gender.fromString gs
            let ad ← Option.bind (decodeCell c6) id
            let bt ← decodeCell c7
            let rl ← decodeCell c8
            let ms ← decodeCell c9
            let oc ← decodeCell c10
            let na ← decodeCell c11
            let vu ← decodeCell c12
            pure { nik := nik, name := nm, birth_place := bp, birth_date := bd,
                   gender := g, address := ad, blood_type := bt, religion := rl,
                   marital_status := ms, occupation := oc, nationality := na,
                   valid_until := vu }
        | _ => none
      else none
  | _ => none

/-! ## Extraction endpoint, modelled from the spec -/

/-- The raw field strings the OCR/classification pipeline hands to
postprocessing. -/
structure RawFields where
  nik : String
  name : String
  birth_place : String
  birth_date : String
  gender : String
  address : String
  blood_type : Option String
  religion : Option String
  marital_status : Option String
  occupation : Option String
  nationality : Option String
  valid_until : Option String

/-- Modelled from the spec: the backend (`POST /api/extract`) is not in the
repository snapshot; its postprocessing validates the extracted fields (NIK
against `^\d{16}$`, the birth date against `DD-MM-YYYY`, the gender
against the enum) and only then produces a `KTPRecord`. -/
def extractRecord (raw : RawFields) : Option KTPData :=
  match Gender.fromString raw.gender with
  | none => none
  | some g =>
      if isNIK16 raw.nik && isDDMMYYYY raw.birth_date then
        some { nik := raw.nik, name := raw.name, birth_place := raw.birth_place,
               birth_date := raw.birth_date, gender := g, address := raw.address,
               blood_type := raw.blood_type, religion := raw.religion,
               marital_status := raw.marital_status, occupation := raw.occupation,
               nationality := raw.nationality, valid_until := raw.valid_until }
      else none

/-- A raw field set matching the `mockKTPData` fixture, with the birth date
written in `DD-MM-YYYY` as the spec prescribes. -/
def sampleRaw : RawFields :=
  { nik := "3173042504900001"
    name := "JOHN DOE"
    birth_place := "JAKARTA"
    birth_date := "25-04-1990"
    gender := "LAKI-LAKI"
    address := "JL. KEBON JERUK RT 001 RW 002 KEL. KEMANGGISAN KEC. PALMERAH"
    blood_type := some "O"
    religion := some "ISLAM"
    marital_status := some "KAWIN"
    occupation := some "KARYAWAN SWASTA"
    nationality := some "WNI"
    valid_until := some "SEUMUR HIDUP" }

/-- The record `extractRecord` produces from `sampleRaw`. -/
def sampleRecord : KTPData :=
  { mockKTPData with birth_date := "25-04-1990" }

/-! ## Helper lemmas -/

theorem Gender.fromString_toString (g : Gender) :
    Gender.fromString (Gender.toString g) = some g := by
  cases g <;> rfl

theorem jOptStr_encOpt (o : Option String) : jOptStr (some (encOpt o)) = some o := by
  cases o <;> rfl

theorem decodeCell_encodeCell (o : Option String) :
    decodeCell (encodeCell o) = some o := by
  cases o with
  | none => rfl
  | some s =>
      simp [encodeCell, decodeCell, List.getLast?_concat, List.dropLast_concat]

/-- C2: exporting a record as JSON or CSV and parsing the document back
yields the record unchanged. -/
theorem export_roundtrip (r : KTPData) :
    importJSON (exportJSON r) = some r ∧ importCSV (exportCSV r) = some r := by
  constructor
  · simp [exportJSON, importJSON, jLookup, jStr, jOptStr_encOpt,
      Gender.fromString_toString]
  · simp [exportCSV, importCSV, decodeCell_encodeCell,
      Gender.fromString_toString]

/-- C1: dropping a single file invokes onUpload with that file exactly when
its MIME type is image/jpeg or image/png and its size is at most
10*1024*1024 bytes; otherwise onUpload is not invoked and validationError
holds the size message for oversize files of an accepted type and the type
message for files of a non-accepted type. -/
theorem imageUpload_validates_drop (f : JsFile) :
    ((dropSingleFile f).2 = some f ↔
      (acceptedMime f.mime = true ∧ f.size ≤ MAX_FILE_SIZE)) ∧
    ((dropSingleFile f).2 = some f → (dropSingleFile f).1 = none) ∧
    (acceptedMime f.mime = false →
      (dropSingleFile f).1 = some invalidTypeMsg ∧ (dropSingleFile f).2 = none) ∧
    (acceptedMime f.mime = true → MAX_FILE_SIZE < f.size →
      (dropSingleFile f).1 = some tooLargeMsg ∧ (dropSingleFile f).2 = none) := by
  by_cases ha : acceptedMime f.mime = true
  · by_cases hs : f.size ≤ MAX_FILE_SIZE
    · have hgt : ¬ (MAX_FILE_SIZE < f.size) := not_lt.mpr hs
      simp [dropSingleFile, dropzoneErrors, onDrop, ha, hs, hgt]
    · have hgt : MAX_FILE_SIZE < f.size := not_le.mp hs
      simp [dropSingleFile, dropzoneErrors, onDrop, ha, hs, hgt, tooLargeMsg]
  · have ha' : acceptedMime f.mime = false := by
      cases h : acceptedMime f.mime
      · rfl
      · exact absurd h ha
    by_cases hgt : MAX_FILE_SIZE < f.size <;>
      simp [dropSingleFile, dropzoneErrors, onDrop, ha', hgt, invalidTypeMsg]

/-- Witness for C1 at a small JPEG file: it is passed to onUpload. -/
theorem imageUpload_validates_drop_witness :
    (dropSingleFile { fname := "ktp.jpg", mime := "image/jpeg", size := 1024 }).2 =
      some { fname := "ktp.jpg", mime := "image/jpeg", size := 1024 } :=
  (imageUpload_validates_drop _).1.mpr (by constructor <;> decide)

/-- C3: when a request fails with an axios error, the error state equals the
selected message and the error box renders it verbatim; that selected
message is exactly the message carried by the response (its first truthy
error field, else the axios message), unchanged. -/
theorem error_displayed_verbatim (st : AppState) (f : JsFile) (b : ServerBehavior)
    (e : AxiosErr)
    (hfail : b.uploadResult = some (ReqError.axios e) ∨
      (b.uploadResult = none ∧ b.extractResult = Sum.inl (ReqError.axios e))) :
    (handleUpload st f b).1.error = some (errorMessageOf e) ∧
    renderedErrorBox (handleUpload st f b).1 = truthyStr (some (errorMessageOf e)) ∧
    (∀ rd m, e.response = some rd → truthyStr rd.error = some m →
      errorMessageOf e = m) ∧
    (∀ rd m, e.response = some rd → truthyStr rd.error = none →
      truthyStr rd.detailError = some m → errorMessageOf e = m) ∧
    (e.response = none → errorMessageOf e = e.message) := by
  refine ⟨?_, ?_, ?_, ?_, ?_⟩
  · rcases hfail with h | ⟨h1, h2⟩
    · simp [handleUpload, h, catchMsg]
    · simp [handleUpload, h1, h2, catchMsg]
  · have h1 : (handleUpload st f b).1.error = some (errorMessageOf e) := by
      rcases hfail with h | ⟨h1, h2⟩
      · simp [handleUpload, h, catchMsg]
      · simp [handleUpload, h1, h2, catchMsg]
    rw [renderedErrorBox, h1]
  · intro rd m hrd ht
    simp [errorMessageOf, hrd, ht]
  · intro rd m hrd ht ht2
    simp [errorMessageOf, hrd, ht, ht2]
  · intro h
    simp [errorMessageOf, h, truthyStr]

/-- Witness for C3: an upload failing with a response carrying an error
message displays exactly that message. -/
theorem error_displayed_verbatim_witness :
    (handleUpload { ktpData := none, loading := false, error := none, imagePreview := none }
      { fname := "a.jpg", mime := "image/jpeg", size := 4 }
      { uploadResult := some (ReqError.axios
          { response := some { error := some "Invalid file format", detailError := none },
            message := "Request failed with status code 400" }),
        extractResult := Sum.inl ReqError.other }).1.error =
      some "Invalid file format" := by
  have h := error_displayed_verbatim
    { ktpData := none, loading := false, error := none, imagePreview := none }
    { fname := "a.jpg", mime := "image/jpeg", size := 4 }
    { uploadResult := some (ReqError.axios
        { response := some { error := some "Invalid file format", detailError := none },
          message := "Request failed with status code 400" }),
      extractResult := Sum.inl ReqError.other }
    { response := some { error := some "Invalid file format", detailError := none },
      message := "Request failed with status code 400" }
    (Or.inl rfl)
  rw [h.1, h.2.2.1 _ "Invalid file format" rfl (by decide)]

/-- C4: every record the modelled extraction endpoint produces has a NIK of
exactly sixteen decimal digits, and the NIK of the displayed test fixture
also has sixteen decimal digits. -/
theorem extracted_nik_sixteen_digits :
    (∀ raw r, extractRecord raw = some r →
      r.nik.length = 16 ∧ ∀ c ∈ r.nik.data, c.isDigit = true) ∧
    (mockKTPData.nik.length = 16 ∧ ∀ c ∈ mockKTPData.nik.data, c.isDigit = true) := by
  constructor
  · intro raw r h
    simp only [extractRecord] at h
    split at h
    · exact absurd h (by simp)
    · split at h
      · rename_i hv
        have h' := Option.some.inj h
        have hnik : isNIK16 raw.nik = true := (Bool.and_eq_true_iff.mp hv).1
        have hr : r.nik = raw.nik := by rw [← h']
        rw [hr]
        unfold isNIK16 at hnik
        obtain ⟨hl, hall⟩ := Bool.and_eq_true_iff.mp hnik
        exact ⟨by simpa using hl, fun c hc => List.all_eq_true.mp hall c hc⟩
      · exact absurd h (by simp)
  · exact ⟨by decide, by decide⟩

/-- Witness for C4: extraction succeeds on the sample raw fields and the
resulting NIK is sixteen decimal digits. -/
theorem extracted_nik_sixteen_digits_witness :
    sampleRecord.nik.length = 16 ∧ ∀ c ∈ sampleRecord.nik.data, c.isDigit = true :=
  extracted_nik_sixteen_digits.1 sampleRaw sampleRecord (by decide)

/-- C5: the birth date of the mock record displayed by KTPDisplay in the
test suite is not in DD-MM-YYYY format, although the same date written
day-first would be. -/
theorem mock_birth_date_not_ddmmyyyy :
    isDDMMYYYY mockKTPData.birth_date = false ∧ isDDMMYYYY "25-04-1990" = true := by
  exact ⟨by decide, by decide⟩

/-- C6: the gender field of every record is one of the two literal enum
values. -/
theorem gender_two_values (d : KTPData) :
    Gender.toString d.gender = "LAKI-LAKI" ∨ Gender.toString d.gender = "PEREMPUAN" := by
  cases d.gender
  · exact Or.inl rfl
  · exact Or.inr rfl

/-- Witness for C6 at the mock record. -/
theorem gender_two_values_witness :
    Gender.toString mockKTPData.gender = "LAKI-LAKI" ∨
      Gender.toString mockKTPData.gender = "PEREMPUAN" :=
  gender_two_values mockKTPData

/-- C7: handleUpload always issues the upload request first; the extract
request is issued exactly when the upload succeeded, with the same file;
and on a successful extract the displayed record is the ktp_data of the
extract response. -/
theorem handleUpload_request_order (st : AppState) (f : JsFile) (b : ServerBehavior) :
    ((handleUpload st f b).2.head? = some (Request.upload f)) ∧
    (∀ e, b.uploadResult = some e → (handleUpload st f b).2 = [Request.upload f]) ∧
    (b.uploadResult = none →
      (handleUpload st f b).2 = [Request.upload f, Request.extract f]) ∧
    (∀ resp, b.uploadResult = none → b.extractResult = Sum.inr resp →
      (handleUpload st f b).1.ktpData = some resp.ktp_data) := by
  refine ⟨?_, ?_, ?_, ?_⟩
  · rcases hub : b.uploadResult with _ | e
    · rcases hex : b.extractResult with e' | resp <;> simp [handleUpload, hub, hex]
    · simp [handleUpload, hub]
  · intro e he
    simp [handleUpload, he]
  · intro he
    rcases hex : b.extractResult with e' | resp <;> simp [handleUpload, he, hex]
  · intro resp he hex
    simp [handleUpload, he, hex]

/-- Witness for C7: with both requests succeeding, the trace is upload then
extract. -/
theorem handleUpload_request_order_witness :
    (handleUpload { ktpData := none, loading := false, error := none, imagePreview := none }
      { fname := "a.jpg", mime := "image/jpeg", size := 4 }
      { uploadResult := none, extractResult := Sum.inr { ktp_data := mockKTPData } }).2 =
      [Request.upload { fname := "a.jpg", mime := "image/jpeg", size := 4 },
       Request.extract { fname := "a.jpg", mime := "image/jpeg", size := 4 }] :=
  (handleUpload_request_order _ _ _).2.2.1 rfl

/-- C9: handleUpload ends with loading false on every path; on any failed
request the displayed record is unchanged, the preview is cleared, and the
error state holds the selected axios message or the fixed fallback. -/
theorem handleUpload_failure_state (st : AppState) (f : JsFile) (b : ServerBehavior) :
    ((handleUpload st f b).1.loading = false) ∧
    (∀ e, (b.uploadResult = some e ∨
        (b.uploadResult = none ∧ b.extractResult = Sum.inl e)) →
      (handleUpload st f b).1.ktpData = st.ktpData ∧
      (handleUpload st f b).1.imagePreview = none ∧
      (handleUpload st f b).1.error = some (catchMsg e)) ∧
    (∀ e, catchMsg (ReqError.axios e) = errorMessageOf e) ∧
    catchMsg ReqError.other = fallbackMsg := by
  refine ⟨?_, ?_, fun e => rfl, rfl⟩
  · rcases hub : b.uploadResult with _ | e
    · rcases hex : b.extractResult with e' | resp <;> simp [handleUpload, hub, hex]
    · simp [handleUpload, hub]
  · intro e he
    rcases he with h | ⟨h1, h2⟩
    · simp [handleUpload, h]
    · simp [handleUpload, h1, h2]

/-- Witness for C9: a failed extract keeps the record, clears the preview,
stores the fallback message, and ends with loading false. -/
theorem handleUpload_failure_state_witness :
    (handleUpload { ktpData := none, loading := false, error := none, imagePreview := none }
      { fname := "a.jpg", mime := "image/jpeg", size := 4 }
      { uploadResult := none, extractResult := Sum.inl ReqError.other }).1.error =
      some fallbackMsg :=
  ((handleUpload_failure_state _ _ _).2.1 ReqError.other (Or.inr ⟨rfl, rfl⟩)).2.2

/-- C10: after a descendant throws, the boundary renders the fallback with
the message of the caught error (or the default text when that message is
empty); the try-again state and the initial state render the children. -/
theorem errorBoundary_behaviour (e : JsError) :
    (EBrender (getDerivedStateFromError e) =
      EBRendered.fallback
        (if e.message = "" then "Something went wrong" else e.message)) ∧
    EBrender tryAgainState = EBRendered.children ∧
    EBrender EBState.initial = EBRendered.children := by
  refine ⟨?_, rfl, rfl⟩
  by_cases h : e.message = "" <;>
    simp [EBrender, getDerivedStateFromError, truthyStr, h]

/-- Witness for C10 at a concrete error. -/
theorem errorBoundary_behaviour_witness :
    EBrender (getDerivedStateFromError { message := "Test error" }) =
      EBRendered.fallback "Test error" := by
  have h := (errorBoundary_behaviour { message := "Test error" }).1
  simpa using h

/-- Witness for C2: the JSON round trip at the mock record. -/
theorem export_roundtrip_witness :
    importJSON (exportJSON mockKTPData) = some mockKTPData :=
  (export_roundtrip mockKTPData).1

/-- A rendered row carries the label of the entry it came from. -/
theorem renderEntry_key (p : String × Option String) (q : String × String)
    (h : renderEntry p = some q) : q.1 = p.1 := by
  unfold renderEntry at h
  cases ht : truthyStr p.2 <;> rw [ht] at h
  · exact absurd h (by simp)
  · rw [← Option.some.inj h]

/-- Every label appearing among the rendered rows is a label of the entry
list. -/
theorem keys_filterMap (l : List (String × Option String)) (k : String) (v : String)
    (h : (k, v) ∈ l.filterMap renderEntry) : k ∈ l.map Prod.fst := by
  rcases List.mem_filterMap.mp h with ⟨p, hp, he⟩
  have hk := renderEntry_key p (k, v) he
  rw [List.mem_map]
  exact ⟨p, hp, hk.symm⟩

/-- Over an entry list with distinct labels, a row for an entry is rendered
exactly when the value of the entry is truthy. -/
theorem renders_iff_aux (l : List (String × Option String)) (p : String × Option String)
    (hp : p ∈ l) (hnd : (l.map Prod.fst).Nodup) :
    (∃ v, (p.1, v) ∈ l.filterMap renderEntry) ↔ (truthyStr p.2).isSome = true := by
  induction l with
  | nil => cases hp
  | cons q rest ih =>
    simp only [List.map_cons, List.nodup_cons] at hnd
    obtain ⟨hq1, hnd'⟩ := hnd
    rcases List.mem_cons.mp hp with rfl | hmem
    · constructor
      · rintro ⟨v, hv⟩
        rw [List.filterMap_cons] at hv
        cases hre : renderEntry p with
        | none =>
            rw [hre] at hv
            exact absurd (keys_filterMap rest p.1 v hv) hq1
        | some r =>
            unfold renderEntry at hre
            cases ht : truthyStr p.2 <;> rw [ht] at hre
            · exact absurd hre (by simp)
            · simp [ht]
      · intro hs
        cases ht : truthyStr p.2 with
        | none => rw [ht] at hs; cases hs
        | some v =>
            refine ⟨v, ?_⟩
            rw [List.filterMap_cons]
            have hre : renderEntry p = some (p.1, v) := by
              unfold renderEntry
              rw [ht]
            rw [hre]
            exact List.mem_cons_self _ _
    · have hkey : p.1 ≠ q.1 := by
        intro hk
        exact hq1 (hk ▸ List.mem_map_of_mem Prod.fst hmem)
      rw [List.filterMap_cons]
      cases hre : renderEntry q with
      | none => exact ih hmem hnd'
      | some r =>
          have hr1 : r.1 = q.1 := renderEntry_key q r hre
          constructor
          · rintro ⟨v, hv⟩
            rcases List.mem_cons.mp hv with heq | hv'
            · exfalso
              apply hkey
              rw [← hr1, ← heq]
            · exact (ih hmem hnd').mp ⟨v, hv'⟩
          · intro hs
            obtain ⟨v, hv⟩ := (ih hmem hnd').mpr hs
            exact ⟨v, List.mem_cons_of_mem _ hv⟩

/-- C8: for every record and every one of the twelve field entries,
KTPDisplay renders a labelled row for that entry exactly when its value is
truthy; a required field holding the empty string is omitted just like an
absent optional field. -/
theorem ktpDisplay_renders_iff_truthy (d : KTPData) (p : String × Option String)
    (hp : p ∈ fieldEntries d) :
    (∃ v, (p.1, v) ∈ renderRows d) ↔ (truthyStr p.2).isSome = true := by
  have hnd : ((fieldEntries d).map Prod.fst).Nodup := by
    simp only [fieldEntries, List.map_cons, List.map_nil]
    decide
  exact renders_iff_aux (fieldEntries d) p hp hnd

/-- Witness for C8: the mock record renders a NIK row, and a record whose
name is empty renders no name row. -/
theorem ktpDisplay_renders_iff_truthy_witness :
    (∃ v, (("NIK" : String), v) ∈ renderRows mockKTPData) ∧
    ¬ (∃ v, (("Nama" : String), v) ∈ renderRows { mockKTPData with name := "" }) :=
  ⟨(ktpDisplay_renders_iff_truthy mockKTPData ("NIK", some mockKTPData.nik)
      (by decide)).mpr (by decide),
   fun h =>
    absurd ((ktpDisplay_renders_iff_truthy { mockKTPData with name := "" }
      ("Nama", some "") (by decide)).mp h) (by decide)⟩

end Katepeh
